import Mathlib

/-!
Verification of the incident-processing pipeline of the Kubernetes AIOps
Evidence Graph platform against its natural-language specification.

The Python services are shallowly embedded: pure computations become Lean
functions over `Nat`, `Int`, `Rat`, `String` and lists; machine/float
arithmetic is modelled as exact rational arithmetic; Python `round` is
modelled as decimal rounding half-to-even; fallible external calls become
explicit result types.  Dynamic dicts are modelled as structures carrying
exactly the fields the embedded code reads, with Python truthiness made
explicit where the code relies on it.  Nondeterministic identifiers
(uuid4, wall-clock timestamps) are irrelevant to every property considered
and are omitted from the records.
-/

/- ---------------------------------------------------------------------
   Generic helpers: Python truthiness, assoc-list dict lookups, substring
   containment, decimal rounding.
   --------------------------------------------------------------------- -/

/-- Lookup in an association list, modelling Python dict.get on string keys. -/
def dictGet (m : List (String × String)) (k : String) : Option String :=
  match m with
  | [] => none
  | (a, v) :: rest => if a = k then some v else dictGet rest k

/-- Python `x or y` on optional strings: None and the empty string are falsy. -/
def pyOrStr (a b : Option String) : Option String :=
  match a with
  | some s => if s = "" then b else some s
  | none => b

/-- Python truthiness of an optional string (None and "" are falsy). -/
def pyTruthyStr (a : Option String) : Bool :=
  match a with
  | some s => !(s = "")
  | none => false

/-- Whether the second character list occurs at the start of the first. -/
def charsStartWith : List Char → List Char → Bool
  | _, [] => true
  | [], _ :: _ => false
  | a :: as, b :: bs => a == b && charsStartWith as bs

/-- Whether the second character list occurs contiguously inside the first:
Python `sub in s`. -/
def charsContain : List Char → List Char → Bool
  | [], sub => sub.isEmpty
  | a :: as, sub => charsStartWith (a :: as) sub || charsContain as sub

/-- Python `sub in s` on strings. -/
def strContains (s sub : String) : Bool :=
  charsContain s.data sub.data

/-- Python str.lower() for the ASCII configuration strings involved. -/
def strToLower (s : String) : String :=
  String.mk (s.data.map Char.toLower)

/-- Round a rational to the nearest integer, ties to even: the semantics of
Python round() on exactly-representable values. -/
def roundHalfEven (q : ℚ) : ℤ :=
  let f : ℤ := ⌊q⌋
  let frac : ℚ := q - (f : ℚ)
  if frac < 1/2 then f
  else if 1/2 < frac then f + 1
  else if f % 2 = 0 then f else f + 1

/-- Python round(q, d): round to d decimal places, ties to even. -/
def roundTo (d : ℕ) (q : ℚ) : ℚ :=
  ((roundHalfEven (q * 10 ^ d) : ℚ)) / 10 ^ d

/-- Take every step-th element of a list starting at offset k from the next
kept index; auxiliary for Python slicing l[::step]. -/
def everyNthAux (step : ℕ) : List α → ℕ → List α
  | [], _ => []
  | a :: as, 0 => a :: everyNthAux step as (step - 1)
  | _ :: as, k + 1 => everyNthAux step as k

/-- Python slice l[::step] for step ≥ 1: elements at indices 0, step, 2·step, … -/
def everyNth (step : ℕ) (l : List α) : List α :=
  everyNthAux step l 0

/- ---------------------------------------------------------------------
   SHA-256, executable, over byte lists (bytes as ℕ < 256, words as ℕ
   < 2^32 with explicit mod-2^32 arithmetic).  Used by the alert
   normalizer fingerprint (hashlib.sha256(key).hexdigest()[:32]).
   --------------------------------------------------------------------- -/

/-- 2^32, the word modulus of SHA-256. -/
def M32 : ℕ := 4294967296

/-- Rotate a 32-bit word right by n bits. -/
def rotr (n x : ℕ) : ℕ :=
  ((x >>> n) ||| ((x % 2 ^ n) <<< (32 - n))) % M32

/-- The eight working variables of the SHA-256 compression function. -/
structure Hash8 where
  a : ℕ
  b : ℕ
  c : ℕ
  d : ℕ
  e : ℕ
  f : ℕ
  g : ℕ
  h : ℕ
deriving DecidableEq

/-- SHA-256 initial hash value. -/
def sha256Init : Hash8 :=
  ⟨1779033703, 3144134277, 1013904242, 2773480762,
   1359893119, 2600822924, 528734635, 1541459225⟩

/-- SHA-256 round constants. -/
def sha256K : List ℕ :=
  [1116352408, 1899447441, 3049323471, 3921009573, 961987163, 1508970993,
   2453635748, 2870763221, 3624381080, 310598401, 607225278, 1426881987,
   1925078388, 2162078206, 2614888103, 3248222580, 3835390401, 4022224774,
   264347078, 604807628, 770255983, 1249150122, 1555081692, 1996064986,
   2554220882, 2821834349, 2952996808, 3210313671, 3336571891, 3584528711,
   113926993, 338241895, 666307205, 773529912, 1294757372, 1396182291,
   1695183700, 1986661051, 2177026350, 2456956037, 2730485921, 2820302411,
   3259730800, 3345764771, 3516065817, 3600352804, 4094571909, 275423344,
   430227734, 506948616, 659060556, 883997877, 958139571, 1322822218,
   1537002063, 1747873779, 1955562222, 2024104815, 2227730452, 2361852424,
   2428436474, 2756734187, 3204031479, 3329325298]

/-- Group bytes into big-endian 32-bit words. -/
def wordsOfBytes : List ℕ → List ℕ
  | b0 :: b1 :: b2 :: b3 :: rest =>
      (((b0 * 256 + b1) * 256 + b2) * 256 + b3) :: wordsOfBytes rest
  | _ => []

/-- Extend the 16-word message block by n further schedule words. -/
def scheduleExt : ℕ → List ℕ → List ℕ
  | 0, ws => ws
  | n + 1, ws =>
      let i := ws.length
      let w15 := ws.getD (i - 15) 0
      let w2 := ws.getD (i - 2) 0
      let w16 := ws.getD (i - 16) 0
      let w7 := ws.getD (i - 7) 0
      let s0 := (rotr 7 w15) ^^^ (rotr 18 w15) ^^^ (w15 >>> 3)
      let s1 := (rotr 17 w2) ^^^ (rotr 19 w2) ^^^ (w2 >>> 10)
      scheduleExt n (ws ++ [(w16 + s0 + w7 + s1) % M32])

/-- One SHA-256 compression round, consuming one (constant, schedule word)
pair. -/
def sha256Round (st : Hash8) (kw : ℕ × ℕ) : Hash8 :=
  let s1 := (rotr 6 st.e) ^^^ (rotr 11 st.e) ^^^ (rotr 25 st.e)
  let ch := (st.e &&& st.f) ^^^ ((st.e ^^^ 0xffffffff) &&& st.g)
  let temp1 := (st.h + s1 + ch + kw.1 + kw.2) % M32
  let s0 := (rotr 2 st.a) ^^^ (rotr 13 st.a) ^^^ (rotr 22 st.a)
  let maj := (st.a &&& st.b) ^^^ (st.a &&& st.c) ^^^ (st.b &&& st.c)
  let temp2 := (s0 + maj) % M32
  ⟨(temp1 + temp2) % M32, st.a, st.b, st.c, (st.d + temp1) % M32, st.e, st.f, st.g⟩

/-- Compress one 64-byte chunk into the running hash. -/
def sha256Compress (st : Hash8) (chunkBytes : List ℕ) : Hash8 :=
  let ws := scheduleExt 48 (wordsOfBytes chunkBytes)
  let fin := (sha256K.zip ws).foldl sha256Round st
  ⟨(st.a + fin.a) % M32, (st.b + fin.b) % M32, (st.c + fin.c) % M32,
   (st.d + fin.d) % M32, (st.e + fin.e) % M32, (st.f + fin.f) % M32,
   (st.g + fin.g) % M32, (st.h + fin.h) % M32⟩

/-- Streaming state: running hash and the bytes of the current partial chunk. -/
structure Sha256State where
  hash : Hash8
  buf : List ℕ
deriving DecidableEq

/-- Absorb one message byte, compressing when a full 64-byte chunk is
available. -/
def sha256Absorb (st : Sha256State) (b : ℕ) : Sha256State :=
  let buf := st.buf ++ [b]
  if buf.length = 64 then ⟨sha256Compress st.hash buf, []⟩
  else ⟨st.hash, buf⟩

/-- The 8-byte big-endian encoding of a (< 2^64) natural number. -/
def beBytes8 (n : ℕ) : List ℕ :=
  [n / 2 ^ 56 % 256, n / 2 ^ 48 % 256, n / 2 ^ 40 % 256, n / 2 ^ 32 % 256,
   n / 2 ^ 24 % 256, n / 2 ^ 16 % 256, n / 2 ^ 8 % 256, n % 256]

/-- SHA-256 padding for a message of len bytes: 0x80, zeros to 56 mod 64,
then the bit length as 8 big-endian bytes. -/
def sha256Padding (len : ℕ) : List ℕ :=
  let z := (55 + 64 - len % 64) % 64
  0x80 :: List.replicate z 0 ++ beBytes8 (len * 8)

/-- The SHA-256 digest (as eight 32-bit words) of a byte list. -/
def sha256Words (msg : List ℕ) : Hash8 :=
  ((msg ++ sha256Padding msg.length).foldl sha256Absorb ⟨sha256Init, []⟩).hash

/-- Lower-case hex character of a nibble. -/
def hexChar (n : ℕ) : Char :=
  if n < 10 then Char.ofNat (48 + n) else Char.ofNat (87 + n)

/-- The 8 hex characters of a 32-bit word, most significant nibble first. -/
def wordHexChars (w : ℕ) : List Char :=
  (List.range 8).map (fun i => hexChar (w / 16 ^ (7 - i) % 16))

/-- hashlib hexdigest of a byte list: 64 lower-case hex characters. -/
def sha256HexChars (msg : List ℕ) : List Char :=
  let d := sha256Words msg
  wordHexChars d.a ++ wordHexChars d.b ++ wordHexChars d.c ++ wordHexChars d.d ++
  wordHexChars d.e ++ wordHexChars d.f ++ wordHexChars d.g ++ wordHexChars d.h

/-- UTF-8 bytes of a string; all strings hashed by the gateway are ASCII, for
which the code points are the bytes. -/
def strBytes (s : String) : List ℕ :=
  s.data.map Char.toNat

/-- hashlib.sha256(key.encode()).hexdigest() as a Lean string. -/
def sha256Hex (s : String) : String :=
  String.mk (sha256HexChars (strBytes s))

/- ---------------------------------------------------------------------
   Alert normalizer (src/services/ingestion/normalizer.py):
   fingerprint generation of AlertNormalizer.
   --------------------------------------------------------------------- -/

/-- AlertNormalizer._generate_fingerprint: the first 32 hex characters of the
SHA-256 of "<source>:<alertname>:<namespace>:<service>". -/
def generate_fingerprint (source alertname nspace service : String) : String :=
  let key := source ++ ":" ++ alertname ++ ":" ++ nspace ++ ":" ++ service
  String.mk ((sha256HexChars (strBytes key)).take 32)

/-- The alertname extracted by normalize_alertmanager: labels.get("alertname",
"Unknown Alert"). -/
def amAlertname (labels : List (String × String)) : String :=
  (dictGet labels "alertname").getD "Unknown Alert"

/-- The namespace extracted by normalize_alertmanager: labels.get("namespace",
"default"). -/
def amNamespace (labels : List (String × String)) : String :=
  (dictGet labels "namespace").getD "default"

/-- The service extracted by normalize_alertmanager:
labels.get("service") or labels.get("job") or labels.get("deployment"). -/
def amService (labels : List (String × String)) : Option String :=
  pyOrStr (pyOrStr (dictGet labels "service") (dictGet labels "job"))
    (dictGet labels "deployment")

/-- The service string normalize_alertmanager feeds into the fingerprint:
service or pod or "". -/
def amFingerprintService (labels : List (String × String)) : String :=
  (pyOrStr (amService labels) (dictGet labels "pod")).getD ""

/-- The fingerprint computed by AlertNormalizer.normalize_alertmanager for an
alert with the given labels dict. -/
def normalize_alertmanager_fingerprint (labels : List (String × String)) : String :=
  generate_fingerprint "alertmanager" (amAlertname labels) (amNamespace labels)
    (amFingerprintService labels)

/-- Modelled from the claim wording, for comparison with the code: the
fingerprint over "<source>:<alertname>:<namespace>:<service>" with the empty
string substituted when the service label is absent. -/
def claim_alertmanager_fingerprint (labels : List (String × String)) : String :=
  generate_fingerprint "alertmanager" (amAlertname labels) (amNamespace labels)
    ((dictGet labels "service").getD "")

/- ---------------------------------------------------------------------
   Rules engine (src/services/rca/rules_engine.py).
   Long free-text payload fields (rule "description" and "hypothesis"
   strings, which no code path reads apart from copying) are omitted from
   the records; every field any claim depends on is kept.
   --------------------------------------------------------------------- -/

/-- The signal bundle extracted from evidence (RulesEngine._init_signals).
Python sets are lists used only through membership, dicts through
key-overwriting association lists. -/
structure Signals where
  waiting_reasons : List String
  terminated_reasons : List String
  log_patterns : List String
  has_recent_deploy : Bool
  has_image_change : Bool
  memory_usage_high : Bool
  cpu_throttling : Bool
  hpa_at_max : Bool
  node_issues : List (Option String × List (String × String))
  restart_count : ℕ
  error_count : ℕ
  latency_high : Bool
  evidence_ids : List String
deriving DecidableEq

/-- RulesEngine._init_signals. -/
def init_signals : Signals :=
  ⟨[], [], [], false, false, false, false, false, [], 0, 0, false, []⟩

/-- Python set.add on a membership-only set model. -/
def setAdd (s : List String) (x : String) : List String :=
  if s.contains x then s else s ++ [x]

/-- Python dict item assignment d[k] = v: overwrite or append. -/
def dictSet (m : List (Option String × List (String × String)))
    (k : Option String) (v : List (String × String)) :
    List (Option String × List (String × String)) :=
  if m.any (fun p => p.1 == k) then
    m.map (fun p => if p.1 == k then (k, v) else p)
  else m ++ [(k, v)]

/-- The fields of an evidence "data" dict that the rules engine reads.  The
"conditions" map keeps, per condition type, the "status" value, the only key
the code reads from the inner dict. -/
structure EvidenceData where
  waiting_reason : Option String := none
  terminated_reason : Option String := none
  restart_count : ℕ := 0
  is_recent_change : Bool := false
  image_changed : Bool := false
  patterns_found : List String := []
  error_count : ℕ := 0
  query_name : String := ""
  is_anomalous : Bool := false
  current_value : Option ℚ := none
  name : Option String := none
  conditions : List (String × String) := []
deriving DecidableEq

/-- An evidence record as the rules engine consumes it: its id, its type tag
and its data payload. -/
structure EvidenceItem where
  id : String
  evidence_type : String
  data : EvidenceData
deriving DecidableEq

/-- RulesEngine._process_pod_evidence. -/
def process_pod_evidence (data : EvidenceData) (signals : Signals) : Signals :=
  let signals :=
    match data.waiting_reason with
    | some w => if w = "" then signals
                else { signals with waiting_reasons := setAdd signals.waiting_reasons w }
    | none => signals
  let signals :=
    match data.terminated_reason with
    | some t => if t = "" then signals
                else { signals with terminated_reasons := setAdd signals.terminated_reasons t }
    | none => signals
  { signals with restart_count := max signals.restart_count data.restart_count }

/-- RulesEngine._process_deploy_evidence. -/
def process_deploy_evidence (data : EvidenceData) (signals : Signals) : Signals :=
  if data.is_recent_change then { signals with has_recent_deploy := true } else signals

/-- RulesEngine._process_image_evidence. -/
def process_image_evidence (data : EvidenceData) (signals : Signals) : Signals :=
  if data.image_changed then { signals with has_image_change := true } else signals

/-- RulesEngine._process_log_evidence. -/
def process_log_evidence (data : EvidenceData) (signals : Signals) : Signals :=
  let signals :=
    { signals with log_patterns := data.patterns_found.foldl setAdd signals.log_patterns }
  { signals with error_count := signals.error_count + data.error_count }

/-- RulesEngine._process_metric_evidence.  Python `current and current > 90`
on an optional number is falsy for None and 0; both readings agree with
comparing the value defaulted to 0. -/
def process_metric_evidence (data : EvidenceData) (signals : Signals) : Signals :=
  let qn := data.query_name
  let signals :=
    if strContains qn "memory" && data.is_anomalous && data.current_value.getD 0 > 90 then
      { signals with memory_usage_high := true }
    else signals
  let signals :=
    if strContains qn "hpa" && strContains qn "max" && data.current_value == some 1 then
      { signals with hpa_at_max := true }
    else signals
  if strContains qn "latency" && data.current_value.getD 0 > 1 then
    { signals with latency_high := true }
  else signals

/-- RulesEngine._process_node_evidence. -/
def process_node_evidence (data : EvidenceData) (signals : Signals) : Signals :=
  let ready_status := dictGet data.conditions "Ready"
  if ready_status != some "True" then
    { signals with node_issues := dictSet signals.node_issues data.name data.conditions }
  else signals

/-- RulesEngine._process_evidence_item: record the evidence id, then dispatch
on the evidence type (unknown types only record the id). -/
def process_evidence_item (signals : Signals) (ev : EvidenceItem) : Signals :=
  let signals := { signals with evidence_ids := signals.evidence_ids ++ [ev.id] }
  match ev.evidence_type with
  | "kubernetes_pod" => process_pod_evidence ev.data signals
  | "deploy_change" => process_deploy_evidence ev.data signals
  | "image_change" => process_image_evidence ev.data signals
  | "log_signal" => process_log_evidence ev.data signals
  | "metric_signal" => process_metric_evidence ev.data signals
  | "kubernetes_node" => process_node_evidence ev.data signals
  | _ => signals

/-- RulesEngine._extract_signals. -/
def extract_signals (evidence : List EvidenceItem) : Signals :=
  evidence.foldl process_evidence_item init_signals

/-- A typed rule condition, one constructor per "type" string appearing in
DIAGNOSIS_RULES, carrying the same parameters as the condition dicts. -/
inductive RuleCondition where
  | waiting_reason (values : List String)
  | terminated_reason (values : List String)
  | recent_deploy (within_minutes : ℕ)
  | no_recent_deploy (within_minutes : ℕ)
  | memory_usage_high (threshold : ℚ)
  | multiple_pods_same_node (threshold : ℕ)
  | node_unhealthy (conditions : List String)
  | hpa_at_max (value : Bool)
  | latency_high (threshold_ms : ℕ)
  | pod_not_ready (duration_seconds : ℕ)
  | readiness_probe_failing (value : Bool)
  | log_pattern (patterns : List String)
  | network_errors_high (threshold : ℕ)
deriving DecidableEq

/-- Result of RulesEngine._check_condition. -/
structure CheckResult where
  matched : Bool
  strength : ℚ
deriving DecidableEq

/-- RulesEngine._check_condition.  The checks table of the source handles
exactly nine condition types; conditions of any other type (the last four
constructors) fall through to the unmatched result. -/
def check_condition (c : RuleCondition) (s : Signals) : CheckResult :=
  match c with
  | .waiting_reason values =>
      if s.waiting_reasons.any (fun w => values.contains w) then ⟨true, 0.9⟩ else ⟨false, 0⟩
  | .terminated_reason values =>
      if s.terminated_reasons.any (fun w => values.contains w) then ⟨true, 0.9⟩ else ⟨false, 0⟩
  | .recent_deploy _ =>
      if s.has_recent_deploy then ⟨true, 0.8⟩ else ⟨false, 0⟩
  | .no_recent_deploy _ =>
      if !s.has_recent_deploy then ⟨true, 0.6⟩ else ⟨false, 0⟩
  | .memory_usage_high _ =>
      if s.memory_usage_high then ⟨true, 0.85⟩ else ⟨false, 0⟩
  | .hpa_at_max _ =>
      if s.hpa_at_max then ⟨true, 0.75⟩ else ⟨false, 0⟩
  | .latency_high _ =>
      if s.latency_high then ⟨true, 0.7⟩ else ⟨false, 0⟩
  | .log_pattern patterns =>
      if s.log_patterns.any (fun p => patterns.contains p) then ⟨true, 0.65⟩ else ⟨false, 0⟩
  | .node_unhealthy _ =>
      if !s.node_issues.isEmpty then ⟨true, 0.8⟩ else ⟨false, 0⟩
  | .multiple_pods_same_node _ => ⟨false, 0⟩
  | .pod_not_ready _ => ⟨false, 0⟩
  | .readiness_probe_failing _ => ⟨false, 0⟩
  | .network_errors_high _ => ⟨false, 0⟩

/-- A diagnosis rule of the static catalog. -/
structure Rule where
  id : String
  name : String
  conditions : List RuleCondition
  category : String
  confidence_base : ℚ
  actions : List String
deriving DecidableEq

/-- The static DIAGNOSIS_RULES catalog, in source order, with the category
enum values spelled out. -/
def DIAGNOSIS_RULES : List Rule :=
  [⟨"crashloop_recent_deploy", "Bad Deployment - CrashLoop",
    [.waiting_reason ["CrashLoopBackOff"], .recent_deploy 30],
    "bad_deployment", 0.90,
    ["rollback_deployment",
     "Check application logs for startup errors",
     "Review recent code changes in the deployment"]⟩,
   ⟨"crashloop_no_change", "Runtime Error - CrashLoop",
    [.waiting_reason ["CrashLoopBackOff"], .no_recent_deploy 60],
    "external_dependency", 0.75,
    ["restart_pod",
     "Check external service connectivity",
     "Verify database connections",
     "Review application logs for dependency errors"]⟩,
   ⟨"oom_killed", "Memory Exhaustion",
    [.terminated_reason ["OOMKilled"]],
    "resource_exhaustion", 0.95,
    ["Increase memory limits if appropriate",
     "Check for memory leaks in application",
     "Review memory usage patterns",
     "restart_deployment"]⟩,
   ⟨"oom_high_memory", "Memory Pressure",
    [.memory_usage_high 0.9],
    "resource_exhaustion", 0.80,
    ["Increase memory limits",
     "Investigate memory usage patterns",
     "Check for memory leaks"]⟩,
   ⟨"image_pull_failure", "Image Pull Error",
    [.waiting_reason ["ImagePullBackOff", "ErrImagePull", "ImageInspectError"]],
    "configuration_error", 0.95,
    ["Verify image tag exists in registry",
     "Check imagePullSecrets configuration",
     "Verify registry authentication",
     "Check network connectivity to registry"]⟩,
   ⟨"node_failure_isolated", "Node-Specific Issue",
    [.multiple_pods_same_node 2,
     .node_unhealthy ["DiskPressure", "MemoryPressure", "PIDPressure", "NetworkUnavailable"]],
    "infrastructure_issue", 0.85,
    ["cordon_node",
     "Migrate pods to healthy nodes",
     "Investigate node health",
     "Check node resource usage"]⟩,
   ⟨"hpa_maxed", "Scaling Limit Reached",
    [.hpa_at_max true, .latency_high 1000],
    "scaling_issue", 0.80,
    ["scale_replicas",
     "Increase HPA max replicas",
     "Review resource requests/limits",
     "Consider adding nodes to cluster"]⟩,
   ⟨"readiness_probe_failing", "Readiness Probe Failure",
    [.pod_not_ready 300, .readiness_probe_failing true],
    "dependency_failure", 0.75,
    ["Check application health endpoints",
     "Verify database connections",
     "Check external service dependencies",
     "Review probe configuration"]⟩,
   ⟨"config_error", "Configuration Error",
    [.terminated_reason ["ContainerCannotRun", "CreateContainerConfigError"]],
    "configuration_error", 0.90,
    ["Check ConfigMap and Secret references",
     "Verify volume mounts",
     "Review container security context",
     "Check environment variable configurations"]⟩,
   ⟨"network_error", "Network Connectivity Issue",
    [.log_pattern ["connection refused", "connection reset", "timeout"],
     .network_errors_high 10],
    "network_issue", 0.70,
    ["Check DNS resolution",
     "Verify network policies",
     "Check service mesh configuration",
     "Test connectivity to external services"]⟩]

/-- Result of RulesEngine._match_rule. -/
structure MatchResult where
  matched : Bool
  match_count : ℕ
  evidence_ids : List String
  evidence_strength : ℚ
deriving DecidableEq

/-- The loop body of RulesEngine._match_rule: count a matching condition and
accumulate its strength. -/
def match_step (signals : Signals) (acc : ℕ × ℚ) (c : RuleCondition) : ℕ × ℚ :=
  let r := check_condition c signals
  if r.matched then (acc.1 + 1, acc.2 + r.strength) else acc

/-- RulesEngine._match_rule: count matching conditions and accumulate their
strengths; the rule matches when every condition matched and there is at
least one. -/
def match_rule (rule : Rule) (signals : Signals) : MatchResult :=
  let acc := rule.conditions.foldl (match_step signals) (0, 0)
  let total := rule.conditions.length
  { matched := acc.1 == total && total > 0
    match_count := acc.1
    evidence_ids := signals.evidence_ids.take 5
    evidence_strength := acc.2 / (max total 1 : ℕ) }

/-- RulesEngine._calculate_confidence. -/
def calculate_confidence (base_confidence : ℚ) (match_count : ℕ)
    (evidence_strength : ℚ) : ℚ :=
  let confidence := base_confidence * 0.6 + evidence_strength * 0.4
  let confidence := if match_count > 2 then min (confidence * 1.1) 0.99 else confidence
  roundTo 3 confidence

/-- A hypothesis as the rules engine emits it (uuid4 id and incident id,
nondeterministic and unread, omitted). -/
structure HypothesisR where
  category : String
  title : String
  confidence : ℚ
  rank : ℕ
  supporting_evidence_ids : List String
  recommended_actions : List String
  generated_by : String
  rule_id : String
  support_count : ℕ
  signal_strength : ℚ
  final_score : ℚ := 0
deriving DecidableEq

/-- RulesEngine._create_hypothesis. -/
def create_hypothesis (rule : Rule) (match_result : MatchResult) : HypothesisR :=
  { category := rule.category
    title := rule.name
    confidence := calculate_confidence rule.confidence_base
      match_result.match_count match_result.evidence_strength
    rank := 0
    supporting_evidence_ids := match_result.evidence_ids
    recommended_actions := rule.actions
    generated_by := "rules_engine"
    rule_id := rule.id
    support_count := match_result.match_count
    signal_strength := match_result.evidence_strength }

/-- RulesEngine._create_unknown_hypothesis. -/
def create_unknown_hypothesis (signals : Signals) : HypothesisR :=
  { category := "unknown"
    title := "Unknown Issue"
    confidence := 0.3
    rank := 1
    supporting_evidence_ids := signals.evidence_ids.take 5
    recommended_actions :=
      ["Review application logs",
       "Check recent deployments",
       "Verify external dependencies",
       "Escalate to engineering team"]
    generated_by := "rules_engine"
    rule_id := "unknown"
    support_count := 0
    signal_strength := 0 }

/-- RulesEngine.generate_hypotheses: match every catalog rule against the
extracted signals, sort matches by confidence descending (Python list.sort
is stable; insertionSort with this relation computes the same stable
ordering), and fall back to the single unknown hypothesis when nothing
matched. -/
def generate_hypotheses (evidence : List EvidenceItem) : List HypothesisR :=
  let signals := extract_signals evidence
  let hypotheses := DIAGNOSIS_RULES.filterMap (fun rule =>
    let mr := match_rule rule signals
    if mr.matched then some (create_hypothesis rule mr) else none)
  let sorted := hypotheses.insertionSort (fun a b => b.confidence ≤ a.confidence)
  if sorted.isEmpty then [create_unknown_hypothesis signals] else sorted

/- ---------------------------------------------------------------------
   Hypothesis ranker (src/services/rca/hypothesis_ranker.py).
   --------------------------------------------------------------------- -/

/-- The category priority weight table of HypothesisRanker.rank, with the
dict.get default 1.0 for unlisted categories. -/
def category_weights (category : String) : ℚ :=
  if category = "resource_exhaustion" then 1.2
  else if category = "bad_deployment" then 1.15
  else if category = "configuration_error" then 1.1
  else if category = "infrastructure_issue" then 1.05
  else if category = "dependency_failure" then 1.0
  else if category = "network_issue" then 0.95
  else if category = "scaling_issue" then 0.9
  else if category = "security_issue" then 0.85
  else if category = "external_dependency" then 0.8
  else if category = "data_issue" then 0.75
  else if category = "unknown" then 0.5
  else 1.0

/-- The final score HypothesisRanker.rank stores on a hypothesis: confidence
times category weight, support boost (only applied when support_count > 0),
signal-strength boost, rounded to 4 decimal places. -/
def final_score_of (h : HypothesisR) : ℚ :=
  let score := h.confidence
  let score := score * category_weights h.category
  let score := if h.support_count > 0 then score * (1 + min h.support_count 5 * 0.05) else score
  let score := score * (1 + h.signal_strength * 0.2)
  roundTo 4 score

/-- Modelled from the claim wording, for comparison with the code: the exact
(unrounded) score confidence · categoryWeight · (1 + 0.05·min(supportCount,5))
· (1 + 0.20·signalStrength). -/
def claim_final_score (h : HypothesisR) : ℚ :=
  h.confidence * category_weights h.category * (1 + 0.05 * min h.support_count 5)
    * (1 + 0.20 * h.signal_strength)

/-- Sequential rank assignment i, i+1, … to a list of hypotheses. -/
def assign_ranks (i : ℕ) : List HypothesisR → List HypothesisR
  | [] => []
  | h :: t => { h with rank := i } :: assign_ranks (i + 1) t

/-- HypothesisRanker.rank: store final scores, sort by final score descending
(Python list.sort is stable; insertionSort with this relation computes the
same stable ordering), assign ranks 1… -/
def rank_hypotheses (hypotheses : List HypothesisR) : List HypothesisR :=
  match hypotheses with
  | [] => []
  | _ =>
    let scored := hypotheses.map (fun h => { h with final_score := final_score_of h })
    let sorted := scored.insertionSort (fun a b => b.final_score ≤ a.final_score)
    assign_ranks 1 sorted

/-- A hypothesis with its mutable ranking outputs normalized, for stating
that sorting preserved everything except rank assignment. -/
def erase_rank (h : HypothesisR) : HypothesisR :=
  { h with rank := 0 }

/- ---------------------------------------------------------------------
   Remediation verifier (src/services/remediation/verifier.py).
   --------------------------------------------------------------------- -/

/-- The dict returned by RemediationVerifier._check_error_rate or
_check_restart_rate: either the error dict of the except branch, or the
current/before/improved dict. -/
inductive ProbeResult where
  | failure (error : String)
  | ok (current before : Option ℚ) (improved : Bool)
deriving DecidableEq

/-- Python probe.get("improved", False): the improved flag, False on the
error dict. -/
def probe_improved : ProbeResult → Bool
  | .failure _ => false
  | .ok _ _ b => b

/-- RemediationVerifier._is_metric_improved: strictly decreased and both
values non-null. -/
def is_metric_improved (current before : Option ℚ) : Bool :=
  match current, before with
  | some c, some b => c < b
  | _, _ => false

/-- RemediationVerifier._check_error_rate given the two Prometheus readings. -/
def check_error_rate (current before : Option ℚ) : ProbeResult :=
  .ok current before (is_metric_improved current before)

/-- RemediationVerifier._check_restart_rate given the two Prometheus
readings: improved iff both non-null and current ≤ before. -/
def check_restart_rate (current before : Option ℚ) : ProbeResult :=
  .ok current before
    (match current, before with
     | some c, some b => c ≤ b
     | _, _ => false)

/-- A pod condition as read by _is_pod_healthy. -/
structure PodCondition where
  type : String
  status : String
deriving DecidableEq

/-- A pod as read by _check_pod_health (status.phase and status.conditions,
with None conditions modelled as the empty list). -/
structure PodStatus where
  phase : String
  conditions : List PodCondition
deriving DecidableEq

/-- RemediationVerifier._is_pod_healthy: Running and no Ready condition with
status other than "True". -/
def is_pod_healthy (pod : PodStatus) : Bool :=
  pod.phase == "Running" &&
    pod.conditions.all (fun c => !(c.type == "Ready" && c.status != "True"))

/-- The dict returned by RemediationVerifier._check_pod_health: an error dict
on exception, else total/healthy counts (with all_healthy and the percentage
derived from them). -/
inductive PodHealthResult where
  | failure (error : String)
  | ok (total healthy : ℕ)
deriving DecidableEq

/-- RemediationVerifier._check_pod_health on a successfully listed pod set. -/
def check_pod_health (pods : List PodStatus) : PodHealthResult :=
  .ok pods.length (pods.countP (fun p => is_pod_healthy p))

/-- The all_healthy entry _check_pod_health stores: healthy == total. -/
def pod_health_all_healthy : PodHealthResult → Bool
  | .failure _ => false
  | .ok total healthy => healthy == total

/-- Python pod_health.get("healthy", False) used as a boolean by verify: the
healthy POD COUNT, truthy exactly when nonzero (False on the error dict).
Note this is the count entry, not the all_healthy flag. -/
def pod_health_healthy_truthy : PodHealthResult → Bool
  | .failure _ => false
  | .ok _ healthy => healthy != 0

/-- The success/metrics_improved pair RemediationVerifier.verify computes. -/
structure VerifyResult where
  success : Bool
  metrics_improved : Bool
deriving DecidableEq

/-- The result combination of RemediationVerifier.verify from the three
probe dicts:
metrics_improved = error.get("improved", False) or restart.get("improved",
False) or pod_health.get("healthy", False); success = metrics_improved and
pod_health.get("healthy", False). -/
def verify_combine (error_rate restart_rate : ProbeResult)
    (pod_health : PodHealthResult) : VerifyResult :=
  let metrics_improved :=
    probe_improved error_rate || probe_improved restart_rate ||
      pod_health_healthy_truthy pod_health
  { success := metrics_improved && pod_health_healthy_truthy pod_health
    metrics_improved := metrics_improved }

/- ---------------------------------------------------------------------
   OPA policy client (src/services/policy/opa_client.py).
   --------------------------------------------------------------------- -/

/-- The "result" object of a policy response body, with each key optional as
read through dict.get. -/
structure OpaResult where
  allow : Option Bool
  requires_approval : Option Bool
  deny : List String
deriving DecidableEq

/-- A parsed policy response body: the optional "result" key. -/
structure OpaBody where
  result : Option OpaResult
deriving DecidableEq

/-- The outcome of the HTTP POST to the policy endpoint: transport error, or
a status code with a body that may or may not parse as JSON. -/
inductive OpaHttpOutcome where
  | netError (error : String)
  | response (status : ℕ) (body : Option OpaBody)
deriving DecidableEq

/-- OPAClient._query_opa: propagate transport errors, raise for any non-2xx
status, raise when the body is not JSON, else return body.get("result", {}). -/
def query_opa : OpaHttpOutcome → Except String OpaResult
  | .netError e => .error e
  | .response status body =>
      if status < 200 || 300 ≤ status then
        .error ("HTTP status error " ++ toString status)
      else
        match body with
        | none => .error "response body is not valid JSON"
        | some b => .ok (b.result.getD ⟨none, none, []⟩)

/-- The decision dict OPAClient.evaluate_remediation returns. -/
structure PolicyDecision where
  allow : Bool
  requires_approval : Bool
  deny_reasons : List String
  reason : String
deriving DecidableEq

/-- OPAClient._build_reason. -/
def build_reason (allow : Bool) (deny_reasons : List String) : String :=
  if allow then "allowed"
  else if !deny_reasons.isEmpty then String.intercalate "; " deny_reasons
  else "policy denied"

/-- OPAClient.evaluate_remediation given the outcome of the policy query:
on success read allow (default False), requires_approval (default True) and
deny (default []); on any exception fail closed. -/
def evaluate_remediation (outcome : OpaHttpOutcome) : PolicyDecision :=
  match query_opa outcome with
  | .ok result =>
      let allow := result.allow.getD false
      let requires_approval := result.requires_approval.getD true
      let deny_reasons := result.deny
      { allow := allow
        requires_approval := requires_approval
        deny_reasons := deny_reasons
        reason := build_reason allow deny_reasons }
  | .error e =>
      { allow := false
        requires_approval := true
        deny_reasons := ["Policy evaluation error: " ++ e]
        reason := "Policy evaluation error: " ++ e }

/- ---------------------------------------------------------------------
   Remediation orchestrator blast radius
   (src/services/remediation/orchestrator.py).
   --------------------------------------------------------------------- -/

/-- The outcome of the deployment lookup inside calculate_blast_radius:
the deployment read succeeded (with spec.replicas possibly null), the read
raised an ApiException (silently swallowed), or some other exception
escaped to the outer handler (kube config loading, client construction, …). -/
inductive ClusterQueryOutcome where
  | found (replicas : Option ℕ)
  | apiException
  | fatal (error : String)
deriving DecidableEq

/-- The dict RemediationOrchestrator.calculate_blast_radius returns: the
success shape, or the error shape of the outer except branch. -/
inductive BlastRadiusResult where
  | ok (score : ℚ) (affected_pods affected_deployments : ℕ)
      (environment : String) (environment_multiplier : ℚ) (is_acceptable : Bool)
  | failure (score : ℚ) (error : String) (is_acceptable : Bool)
deriving DecidableEq

/-- The score entry of a blast radius result. -/
def BlastRadiusResult.score : BlastRadiusResult → ℚ
  | .ok s _ _ _ _ _ => s
  | .failure s _ _ => s

/-- The is_acceptable entry of a blast radius result. -/
def BlastRadiusResult.is_acceptable : BlastRadiusResult → Bool
  | .ok _ _ _ _ _ a => a
  | .failure _ _ a => a

/-- The environment multiplier table of calculate_blast_radius, with default
3.0. -/
def env_multiplier (env : String) : ℚ :=
  if env = "dev" then 1.0
  else if env = "staging" then 2.0
  else if env = "uat" then 2.5
  else if env = "prod" then 5.0
  else 3.0

/-- The critical namespace set of calculate_blast_radius. -/
def critical_namespaces : List String := ["default", "platform", "core-services"]

/-- RemediationOrchestrator.calculate_blast_radius for an incident with the
given namespace and service, the configured app_env and
remediation_max_blast_radius, and the given cluster query outcome.
Python `deploy.spec.replicas or 1` maps null and 0 to 1. -/
def calculate_blast_radius (nspace : String) (service : Option String)
    (app_env : String) (max_blast_radius : ℚ) (query : ClusterQueryOutcome) :
    BlastRadiusResult :=
  match query with
  | .fatal e => .failure 100 e false
  | _ =>
    let counts : ℕ × ℕ :=
      if pyTruthyStr service then
        match query with
        | .found replicas =>
            (match replicas with
             | some (n + 1) => n + 1
             | _ => 1, 1)
        | _ => (0, 0)
      else (0, 0)
    let affected_pods := counts.1
    let affected_deployments := counts.2
    let env := strToLower app_env
    let multiplier := env_multiplier env
    let base_score : ℚ := affected_pods * 5 + affected_deployments * 10
    let base_score :=
      if critical_namespaces.contains nspace then base_score * 1.5 else base_score
    let final_score := min (base_score * multiplier) 100
    .ok (roundTo 2 final_score) affected_pods affected_deployments env multiplier
      (final_score < max_blast_radius)

/- ---------------------------------------------------------------------
   Metrics collector result processing
   (src/services/collectors/metrics_collector.py).
   --------------------------------------------------------------------- -/

/-- A raw Prometheus sample value string as float() sees it: a finite
number, positive or negative infinity, NaN, or an unparsable string. -/
inductive RawMetricValue where
  | num (value : ℚ)
  | posInf
  | negInf
  | nan
  | unparsable
deriving DecidableEq

/-- A parsed metric value: a finite rational or NaN (which float comparison
against ±inf lets through). -/
inductive MetricNum where
  | num (value : ℚ)
  | nan
deriving DecidableEq

/-- A parsed sample point (labels carried along verbatim are irrelevant to
every property considered and omitted). -/
structure MetricPoint where
  timestamp : ℚ
  value : MetricNum
deriving DecidableEq

/-- MetricsCollector._parse_metric_value: None for unparsable strings and
for exactly +inf / -inf; NaN compares unequal to both infinities and is
kept. -/
def parse_metric_value (ts : ℚ) (val : RawMetricValue) : Option MetricPoint :=
  match val with
  | .num v => some ⟨ts, .num v⟩
  | .posInf => none
  | .negInf => none
  | .nan => some ⟨ts, .nan⟩
  | .unparsable => none

/-- The decimation step of _process_results: series strictly longer than
max_points are strided by len // max_points. -/
def decimate (max_points : ℕ) (all_values : List MetricPoint) : List MetricPoint :=
  if all_values.length > max_points then
    everyNth (all_values.length / max_points) all_values
  else all_values

/-- MetricsCollector._process_results up to the statistics computation: parse
every (timestamp, value) sample of every series, drop the unparsable and
infinite ones, sort by timestamp (Python list.sort is stable; insertionSort
with this relation computes the same stable ordering), then decimate. -/
def process_results (max_points : ℕ) (results : List (List (ℚ × RawMetricValue))) :
    List MetricPoint :=
  let all_values := results.foldl
    (fun acc series => acc ++ series.filterMap (fun s => parse_metric_value s.1 s.2)) []
  let all_values := all_values.insertionSort (fun a b => a.timestamp ≤ b.timestamp)
  decimate max_points all_values

/- ---------------------------------------------------------------------
   Named rules, evidence lists, signal bundles and data points used to
   instantiate the claims concretely.
   --------------------------------------------------------------------- -/

/-- The fixed strength the checks table of _check_condition attaches to each
implemented condition type (the four unimplemented types never match). -/
def condition_strength : RuleCondition → ℚ
  | .waiting_reason _ => 0.9
  | .terminated_reason _ => 0.9
  | .recent_deploy _ => 0.8
  | .no_recent_deploy _ => 0.6
  | .memory_usage_high _ => 0.85
  | .hpa_at_max _ => 0.75
  | .latency_high _ => 0.7
  | .log_pattern _ => 0.65
  | .node_unhealthy _ => 0.8
  | _ => 0

/-- Witness signals for C4: a bundle with an OOMKilled termination reason. -/
def oom_signals : Signals :=
  { init_signals with terminated_reasons := ["OOMKilled"] }

/-- The oom_killed catalog rule, spelled out for concrete instantiation. -/
def oom_killed_rule : Rule :=
  ⟨"oom_killed", "Memory Exhaustion",
   [.terminated_reason ["OOMKilled"]],
   "resource_exhaustion", 0.95,
   ["Increase memory limits if appropriate",
    "Check for memory leaks in application",
    "Review memory usage patterns",
    "restart_deployment"]⟩

/-- The node_failure_isolated catalog rule, spelled out. -/
def node_failure_isolated_rule : Rule :=
  ⟨"node_failure_isolated", "Node-Specific Issue",
   [.multiple_pods_same_node 2,
    .node_unhealthy ["DiskPressure", "MemoryPressure", "PIDPressure", "NetworkUnavailable"]],
   "infrastructure_issue", 0.85,
   ["cordon_node",
    "Migrate pods to healthy nodes",
    "Investigate node health",
    "Check node resource usage"]⟩

/-- The readiness_probe_failing catalog rule, spelled out. -/
def readiness_probe_failing_rule : Rule :=
  ⟨"readiness_probe_failing", "Readiness Probe Failure",
   [.pod_not_ready 300, .readiness_probe_failing true],
   "dependency_failure", 0.75,
   ["Check application health endpoints",
    "Verify database connections",
    "Check external service dependencies",
    "Review probe configuration"]⟩

/-- The network_error catalog rule, spelled out. -/
def network_error_rule : Rule :=
  ⟨"network_error", "Network Connectivity Issue",
   [.log_pattern ["connection refused", "connection reset", "timeout"],
    .network_errors_high 10],
   "network_issue", 0.70,
   ["Check DNS resolution",
    "Verify network policies",
    "Check service mesh configuration",
    "Test connectivity to external services"]⟩

/-- Evidence making the crashloop_recent_deploy rule fire. -/
def crashloop_deploy_evidence : List EvidenceItem :=
  [⟨"ev-pod-1", "kubernetes_pod", { waiting_reason := some "CrashLoopBackOff" }⟩,
   ⟨"ev-deploy-1", "deploy_change", { is_recent_change := true }⟩]

/-- Evidence making the crashloop_no_change rule fire. -/
def crashloop_only_evidence : List EvidenceItem :=
  [⟨"ev-pod-1", "kubernetes_pod", { waiting_reason := some "CrashLoopBackOff" }⟩]

/-- Evidence making the oom_killed rule fire. -/
def oom_evidence : List EvidenceItem :=
  [⟨"ev-pod-1", "kubernetes_pod", { terminated_reason := some "OOMKilled" }⟩]

/-- Evidence making the oom_high_memory rule fire. -/
def high_memory_evidence : List EvidenceItem :=
  [⟨"ev-metric-1", "metric_signal",
    { query_name := "container_memory_usage_percent", is_anomalous := true,
      current_value := some 95 }⟩]

/-- Evidence making the image_pull_failure rule fire. -/
def image_pull_evidence : List EvidenceItem :=
  [⟨"ev-pod-1", "kubernetes_pod", { waiting_reason := some "ImagePullBackOff" }⟩]

/-- Evidence making the hpa_maxed rule fire. -/
def hpa_maxed_evidence : List EvidenceItem :=
  [⟨"ev-metric-1", "metric_signal", { query_name := "hpa_at_max", current_value := some 1 }⟩,
   ⟨"ev-metric-2", "metric_signal", { query_name := "latency_p99_seconds", current_value := some 3 }⟩]

/-- Evidence making the config_error rule fire. -/
def config_error_evidence : List EvidenceItem :=
  [⟨"ev-pod-1", "kubernetes_pod", { terminated_reason := some "CreateContainerConfigError" }⟩]

example : (match_rule oom_killed_rule (extract_signals oom_evidence)).matched = true := by decide
example :
    (match_rule node_failure_isolated_rule (extract_signals oom_evidence)).matched = false := by
  decide

/-- Witness evidence for C8: a single log-signal item matching no rule. -/
def no_match_evidence : List EvidenceItem :=
  [⟨"ev-log-1", "log_signal", {}⟩]

/-- Pods for the C1 failing input: one Running-and-Ready pod next to one
Pending pod. -/
def c1_pods : List PodStatus :=
  [⟨"Running", [⟨"Ready", "True"⟩]⟩, ⟨"Pending", []⟩]

/-- Labels of two alerts that agree on source, alertname, namespace and the
(absent) service label, and differ only in the pod label. -/
def c2_labels_pod1 : List (String × String) :=
  [("alertname", "A"), ("namespace", "ns"), ("pod", "p1")]

/-- Companion labels differing from c2_labels_pod1 only in the pod label. -/
def c2_labels_pod2 : List (String × String) :=
  [("alertname", "A"), ("namespace", "ns"), ("pod", "p2")]

/-- Label lists for the C2 witness: same alertname, namespace and service,
different pod labels. -/
def c2_witness_labels1 : List (String × String) :=
  [("alertname", "HighErrorRate"), ("namespace", "shop"), ("service", "checkout"),
   ("pod", "checkout-abc")]

/-- Companion label list differing from c2_witness_labels1 only in pod. -/
def c2_witness_labels2 : List (String × String) :=
  [("alertname", "HighErrorRate"), ("namespace", "shop"), ("service", "checkout"),
   ("pod", "checkout-xyz")]

/-- Three parsed points for the C9 witness. -/
def c9_points : List MetricPoint :=
  [⟨0, .num 1⟩, ⟨1, .num 2⟩, ⟨2, .num 3⟩]

/-- A concrete ranked hypothesis whose exact product formula has six decimal
places. -/
def c3_hypothesis : HypothesisR :=
  { category := "bad_deployment", title := "Bad Deployment - CrashLoop",
    confidence := 0.88, rank := 0, supporting_evidence_ids := [],
    recommended_actions := [], generated_by := "rules_engine",
    rule_id := "crashloop_recent_deploy", support_count := 2,
    signal_strength := 0.85 }

/- ---------------------------------------------------------------------
   Theorems.  General lemmas first, then one theorem per claim (with its
   witness or counterexample where required).
   --------------------------------------------------------------------- -/

/-- Rounding to d decimal places is the identity on rationals that are
integer multiples of 10^-d. -/
theorem roundTo_eq_self (d : ℕ) (q : ℚ) (z : ℤ) (h : q * 10 ^ d = z) :
    roundTo d q = q := by
  unfold roundTo roundHalfEven
  rw [h]
  have hfl : ⌊(z : ℚ)⌋ = z := Int.floor_intCast z
  simp only [hfl, sub_self]
  norm_num
  have hpow : (10 : ℚ) ^ d ≠ 0 := by positivity
  field_simp
  linarith [h]

/-- Rounding to 2 decimals is the identity on min(x, 100) when 100·x is an
integer. -/
theorem roundTo2_min100 (x : ℚ) (z : ℤ) (h : x * 100 = z) :
    roundTo 2 (min x 100) = min x 100 := by
  rcases min_cases x 100 with ⟨h1, _⟩ | ⟨h1, _⟩ <;> rw [h1]
  · exact roundTo_eq_self 2 x z (by rw [show ((10 : ℚ)) ^ 2 = 100 from by norm_num, h])
  · exact roundTo_eq_self 2 100 10000 (by norm_num)

/-- Every evidence processor leaves the collected evidence-id list alone. -/
theorem process_pod_evidence_ids (d : EvidenceData) (s : Signals) :
    (process_pod_evidence d s).evidence_ids = s.evidence_ids := by
  unfold process_pod_evidence
  cases d.waiting_reason <;> cases d.terminated_reason <;> dsimp only <;>
    (try split) <;> (try split) <;> rfl

/-- The deploy processor leaves the evidence-id list alone. -/
theorem process_deploy_evidence_ids (d : EvidenceData) (s : Signals) :
    (process_deploy_evidence d s).evidence_ids = s.evidence_ids := by
  unfold process_deploy_evidence; split <;> rfl

/-- The image processor leaves the evidence-id list alone. -/
theorem process_image_evidence_ids (d : EvidenceData) (s : Signals) :
    (process_image_evidence d s).evidence_ids = s.evidence_ids := by
  unfold process_image_evidence; split <;> rfl

/-- The log processor leaves the evidence-id list alone. -/
theorem process_log_evidence_ids (d : EvidenceData) (s : Signals) :
    (process_log_evidence d s).evidence_ids = s.evidence_ids := rfl

/-- The metric processor leaves the evidence-id list alone. -/
theorem process_metric_evidence_ids (d : EvidenceData) (s : Signals) :
    (process_metric_evidence d s).evidence_ids = s.evidence_ids := by
  unfold process_metric_evidence
  dsimp only
  split <;> split <;> split <;> rfl

/-- The node processor leaves the evidence-id list alone. -/
theorem process_node_evidence_ids (d : EvidenceData) (s : Signals) :
    (process_node_evidence d s).evidence_ids = s.evidence_ids := by
  unfold process_node_evidence; dsimp only; split <;> rfl

/-- Processing one evidence item appends exactly its id to the id list. -/
theorem process_evidence_item_ids (s : Signals) (ev : EvidenceItem) :
    (process_evidence_item s ev).evidence_ids = s.evidence_ids ++ [ev.id] := by
  unfold process_evidence_item
  split <;>
    simp [process_pod_evidence_ids, process_deploy_evidence_ids,
      process_image_evidence_ids, process_log_evidence_ids,
      process_metric_evidence_ids, process_node_evidence_ids]

/-- Folding the evidence processors appends the ids in evidence order. -/
theorem foldl_process_evidence_ids :
    ∀ (evidence : List EvidenceItem) (s : Signals),
      (evidence.foldl process_evidence_item s).evidence_ids =
        s.evidence_ids ++ evidence.map (fun e => e.id) := by
  intro evidence
  induction evidence with
  | nil => intro s; simp
  | cons ev rest ih =>
      intro s
      simp only [List.foldl_cons, List.map_cons]
      rw [ih, process_evidence_item_ids]
      simp

/-- The extracted signal bundle records exactly the incoming evidence ids in
order. -/
theorem extract_signals_ids (evidence : List EvidenceItem) :
    (extract_signals evidence).evidence_ids = evidence.map (fun e => e.id) := by
  unfold extract_signals
  rw [foldl_process_evidence_ids]
  simp [init_signals]

/-- A matching condition always contributes its table strength. -/
theorem check_condition_strength (c : RuleCondition) (s : Signals)
    (h : (check_condition c s).matched = true) :
    (check_condition c s).strength = condition_strength c := by
  cases c <;> simp only [check_condition, condition_strength] at h ⊢ <;>
    first
      | rfl
      | (split at h <;> split <;> simp_all)

/-- The four condition types absent from the checks table never match. -/
theorem check_condition_unimplemented (s : Signals) :
    (∀ t, (check_condition (.multiple_pods_same_node t) s).matched = false) ∧
    (∀ t, (check_condition (.pod_not_ready t) s).matched = false) ∧
    (∀ v, (check_condition (.readiness_probe_failing v) s).matched = false) ∧
    (∀ t, (check_condition (.network_errors_high t) s).matched = false) :=
  ⟨fun _ => rfl, fun _ => rfl, fun _ => rfl, fun _ => rfl⟩

/-- Behaviour of the match-counting fold of _match_rule: the count is
bounded by the condition count; it reaches the bound exactly when every
condition matched, in which case the strengths add up to the table sum. -/
theorem match_fold (signals : Signals) :
    ∀ (conds : List RuleCondition) (c0 : ℕ) (s0 : ℚ),
      (conds.foldl (match_step signals) (c0, s0)).1 ≤ c0 + conds.length ∧
      ((conds.foldl (match_step signals) (c0, s0)).1 = c0 + conds.length →
        ∀ c ∈ conds, (check_condition c signals).matched = true) ∧
      ((∀ c ∈ conds, (check_condition c signals).matched = true) →
        conds.foldl (match_step signals) (c0, s0) =
          (c0 + conds.length, s0 + (conds.map condition_strength).sum)) := by
  intro conds
  induction conds with
  | nil => intro c0 s0; simp
  | cons c t ih =>
      intro c0 s0
      by_cases hm : (check_condition c signals).matched = true
      · have hstep : match_step signals (c0, s0) c =
            (c0 + 1, s0 + (check_condition c signals).strength) := by
          unfold match_step; simp [hm]
        have hstr := check_condition_strength c signals hm
        obtain ⟨ihb, ihe, iha⟩ := ih (c0 + 1) (s0 + (check_condition c signals).strength)
        refine ⟨?_, ?_, ?_⟩
        · simpa [hstep, Nat.add_assoc, Nat.add_comm 1 t.length] using ihb
        · intro heq x hx
          rcases List.mem_cons.mp hx with rfl | hxt
          · exact hm
          · refine ihe ?_ x hxt
            simp only [List.foldl_cons, hstep, List.length_cons] at heq
            omega
        · intro hall
          simp only [List.foldl_cons, hstep]
          rw [iha (fun x hx => hall x (List.mem_cons_of_mem c hx))]
          simp only [List.map_cons, List.sum_cons, List.length_cons, hstr, Prod.mk.injEq]
          constructor
          · omega
          · ring
      · have hm2 : (check_condition c signals).matched = false :=
          Bool.eq_false_iff.mpr hm
        have hstep : match_step signals (c0, s0) c = (c0, s0) := by
          unfold match_step; simp [hm2]
        obtain ⟨ihb, ihe, iha⟩ := ih c0 s0
        refine ⟨?_, ?_, ?_⟩
        · simp only [List.foldl_cons, hstep]
          calc (t.foldl (match_step signals) (c0, s0)).1 ≤ c0 + t.length := ihb
            _ ≤ c0 + (c :: t).length := by simp
        · intro heq
          exfalso
          simp only [List.foldl_cons, hstep] at heq
          have := ihb
          rw [heq] at this
          simp at this
        · intro hall
          exact absurd (hall c (List.mem_cons_self c t)) hm
theorem match_rule_all_matched (rule : Rule) (signals : Signals)
    (h : (match_rule rule signals).matched = true) :
    ∀ c ∈ rule.conditions, (check_condition c signals).matched = true := by
  have hfold := match_fold signals rule.conditions 0 0
  simp only [match_rule] at h
  rw [Bool.and_eq_true] at h
  obtain ⟨h1, h2⟩ := h
  exact hfold.2.1 (by simpa using h1)

theorem match_rule_matched_eval (rule : Rule) (signals : Signals)
    (h : (match_rule rule signals).matched = true) :
    0 < rule.conditions.length ∧
    (match_rule rule signals).match_count = rule.conditions.length ∧
    (match_rule rule signals).evidence_strength =
      (rule.conditions.map condition_strength).sum / (rule.conditions.length : ℚ) := by
  have hfold := match_fold signals rule.conditions 0 0
  have hall := match_rule_all_matched rule signals h
  have heval := hfold.2.2 hall
  simp only [match_rule] at h
  rw [Bool.and_eq_true] at h
  obtain ⟨h1, h2⟩ := h
  have hlen : 0 < rule.conditions.length := by simpa using h2
  have hmax : max rule.conditions.length 1 = rule.conditions.length := by omega
  refine ⟨hlen, ?_, ?_⟩
  · simp only [match_rule]
    rw [heval]
    simp
  · simp only [match_rule]
    rw [heval, hmax]
    simp

/-- C4: for every catalog rule all of whose conditions match a signal bundle,
the emitted hypothesis confidence equals exactly 0.6·base + 0.4·(sum of
matched condition strengths / number of conditions) — the 3-decimal rounding
of the source is the identity there and no catalog rule has more than two
conditions, so the 1.1 boost never applies to it; a match count of exactly
two gets no boost, and only a match count above two triggers the 1.1 boost
capped at 0.99 (followed by the 3-decimal rounding). -/
theorem claim_C4_confidence :
    (∀ rule ∈ DIAGNOSIS_RULES, ∀ signals : Signals,
      (match_rule rule signals).matched = true →
      (create_hypothesis rule (match_rule rule signals)).confidence =
        0.6 * rule.confidence_base + 0.4 * (match_rule rule signals).evidence_strength) ∧
    (∀ b s : ℚ, calculate_confidence b 2 s = roundTo 3 (b * 0.6 + s * 0.4)) ∧
    (∀ b s : ℚ, ∀ n : ℕ, 2 < n →
      calculate_confidence b n s = roundTo 3 (min ((b * 0.6 + s * 0.4) * 1.1) 0.99)) := by
  refine ⟨?_, ?_, ?_⟩
  · intro rule hr signals hm
    obtain ⟨hpos, hcount, hes⟩ := match_rule_matched_eval rule signals hm
    simp only [create_hypothesis]
    rw [hcount, hes]
    fin_cases hr <;> norm_num [calculate_confidence, roundTo, roundHalfEven, condition_strength]
  · intro b s
    unfold calculate_confidence
    norm_num
  · intro b s n hn
    unfold calculate_confidence
    simp [hn]

/-- Witness for C4 at the oom_killed rule and a matching signal bundle. -/
theorem claim_C4_confidence_witness :
    (create_hypothesis oom_killed_rule (match_rule oom_killed_rule oom_signals)).confidence =
      0.6 * oom_killed_rule.confidence_base +
        0.4 * (match_rule oom_killed_rule oom_signals).evidence_strength :=
  claim_C4_confidence.1 oom_killed_rule
    (by simp [DIAGNOSIS_RULES, oom_killed_rule])
    oom_signals (by decide)

/-- If a rule of the catalog matches the signals extracted from an evidence
list, its hypothesis is among the generated hypotheses. -/
theorem mem_generate_hypotheses_of_matched (evidence : List EvidenceItem) (rule : Rule)
    (hr : rule ∈ DIAGNOSIS_RULES)
    (hm : (match_rule rule (extract_signals evidence)).matched = true) :
    create_hypothesis rule (match_rule rule (extract_signals evidence)) ∈
      generate_hypotheses evidence := by
  unfold generate_hypotheses
  have hmem : create_hypothesis rule (match_rule rule (extract_signals evidence)) ∈
      DIAGNOSIS_RULES.filterMap (fun rule =>
        let mr := match_rule rule (extract_signals evidence)
        if mr.matched then some (create_hypothesis rule mr) else none) :=
    List.mem_filterMap.mpr ⟨rule, hr, by simp [hm]⟩
  have hsort := (List.mem_insertionSort
    (fun a b : HypothesisR => b.confidence ≤ a.confidence)).mpr hmem
  dsimp only
  split
  · next hempty =>
      rw [List.isEmpty_iff] at hempty
      rw [hempty] at hsort
      simp at hsort
  · exact hsort

/-- node_failure_isolated can never fire: its first condition type is not in
the checks table. -/
theorem node_failure_isolated_never_fires (signals : Signals) :
    (match_rule node_failure_isolated_rule signals).matched = false := by
  cases hm : (match_rule node_failure_isolated_rule signals).matched
  · rfl
  · exfalso
    have h := match_rule_all_matched _ _ hm (.multiple_pods_same_node 2)
      (by simp [node_failure_isolated_rule])
    simp [check_condition] at h

/-- readiness_probe_failing can never fire: neither condition type is in the
checks table. -/
theorem readiness_probe_failing_never_fires (signals : Signals) :
    (match_rule readiness_probe_failing_rule signals).matched = false := by
  cases hm : (match_rule readiness_probe_failing_rule signals).matched
  · rfl
  · exfalso
    have h := match_rule_all_matched _ _ hm (.pod_not_ready 300)
      (by simp [readiness_probe_failing_rule])
    simp [check_condition] at h

/-- network_error can never fire: its network_errors_high condition type is
not in the checks table. -/
theorem network_error_never_fires (signals : Signals) :
    (match_rule network_error_rule signals).matched = false := by
  cases hm : (match_rule network_error_rule signals).matched
  · rfl
  · exfalso
    have h := match_rule_all_matched _ _ hm (.network_errors_high 10)
      (by simp [network_error_rule])
    simp [check_condition] at h

/-- Packaging: a matching catalog rule yields evidence whose generated
hypotheses contain a hypothesis with that rule id and category. -/
theorem rule_fires_exists (rule : Rule) (evidence : List EvidenceItem)
    (hr : rule ∈ DIAGNOSIS_RULES)
    (hm : (match_rule rule (extract_signals evidence)).matched = true) :
    ∃ ev, ∃ h ∈ generate_hypotheses ev, h.rule_id = rule.id ∧ h.category = rule.category :=
  ⟨evidence, create_hypothesis rule (match_rule rule (extract_signals evidence)),
    mem_generate_hypotheses_of_matched evidence rule hr hm, rfl, rfl⟩

/-- C5 counterexample: the claim fails at the node_failure_isolated rule of
the catalog — no evidence list can make all of its conditions match, because
its multiple_pods_same_node condition type is not implemented by the
condition checker, so the rule never fires. -/
theorem claim_C5_counterexample :
    node_failure_isolated_rule ∈ DIAGNOSIS_RULES ∧
    ¬ ∃ evidence : List EvidenceItem,
        (match_rule node_failure_isolated_rule (extract_signals evidence)).matched = true := by
  refine ⟨by simp [DIAGNOSIS_RULES, node_failure_isolated_rule], ?_⟩
  rintro ⟨ev, hm⟩
  rw [node_failure_isolated_never_fires] at hm
  cases hm

/-- C5 amended: seven of the ten catalog rules (crashloop_recent_deploy,
crashloop_no_change, oom_killed, oom_high_memory, image_pull_failure,
hpa_maxed, config_error) fire on suitable evidence and produce a hypothesis
of their assigned category; the remaining three (node_failure_isolated,
readiness_probe_failing, network_error) each contain a condition type the
condition checker does not implement and can never fire on any signal
bundle. -/
theorem claim_C5_amended :
    (∃ ev, ∃ h ∈ generate_hypotheses ev,
      h.rule_id = "crashloop_recent_deploy" ∧ h.category = "bad_deployment") ∧
    (∃ ev, ∃ h ∈ generate_hypotheses ev,
      h.rule_id = "crashloop_no_change" ∧ h.category = "external_dependency") ∧
    (∃ ev, ∃ h ∈ generate_hypotheses ev,
      h.rule_id = "oom_killed" ∧ h.category = "resource_exhaustion") ∧
    (∃ ev, ∃ h ∈ generate_hypotheses ev,
      h.rule_id = "oom_high_memory" ∧ h.category = "resource_exhaustion") ∧
    (∃ ev, ∃ h ∈ generate_hypotheses ev,
      h.rule_id = "image_pull_failure" ∧ h.category = "configuration_error") ∧
    (∃ ev, ∃ h ∈ generate_hypotheses ev,
      h.rule_id = "hpa_maxed" ∧ h.category = "scaling_issue") ∧
    (∃ ev, ∃ h ∈ generate_hypotheses ev,
      h.rule_id = "config_error" ∧ h.category = "configuration_error") ∧
    (node_failure_isolated_rule ∈ DIAGNOSIS_RULES ∧
      ∀ signals, (match_rule node_failure_isolated_rule signals).matched = false) ∧
    (readiness_probe_failing_rule ∈ DIAGNOSIS_RULES ∧
      ∀ signals, (match_rule readiness_probe_failing_rule signals).matched = false) ∧
    (network_error_rule ∈ DIAGNOSIS_RULES ∧
      ∀ signals, (match_rule network_error_rule signals).matched = false) := by
  refine ⟨?_, ?_, ?_, ?_, ?_, ?_, ?_, ?_, ?_, ?_⟩
  · exact rule_fires_exists (DIAGNOSIS_RULES[0]) crashloop_deploy_evidence
      (DIAGNOSIS_RULES.getElem_mem _) (by decide)
  · exact rule_fires_exists (DIAGNOSIS_RULES[1]) crashloop_only_evidence
      (DIAGNOSIS_RULES.getElem_mem _) (by decide)
  · exact rule_fires_exists (DIAGNOSIS_RULES[2]) oom_evidence
      (DIAGNOSIS_RULES.getElem_mem _) (by decide)
  · exact rule_fires_exists (DIAGNOSIS_RULES[3]) high_memory_evidence
      (DIAGNOSIS_RULES.getElem_mem _) (by decide)
  · exact rule_fires_exists (DIAGNOSIS_RULES[4]) image_pull_evidence
      (DIAGNOSIS_RULES.getElem_mem _) (by decide)
  · exact rule_fires_exists (DIAGNOSIS_RULES[6]) hpa_maxed_evidence
      (DIAGNOSIS_RULES.getElem_mem _) (by decide)
  · exact rule_fires_exists (DIAGNOSIS_RULES[8]) config_error_evidence
      (DIAGNOSIS_RULES.getElem_mem _) (by decide)
  · exact ⟨by simp [DIAGNOSIS_RULES, node_failure_isolated_rule],
      node_failure_isolated_never_fires⟩
  · exact ⟨by simp [DIAGNOSIS_RULES, readiness_probe_failing_rule],
      readiness_probe_failing_never_fires⟩
  · exact ⟨by simp [DIAGNOSIS_RULES, network_error_rule], network_error_never_fires⟩

/-- C8: the empty evidence list yields exactly one unknown hypothesis with
confidence 0.30, rank 1 and the generic action list; more generally, whenever
no catalog rule matches, the output is exactly the single unknown
hypothesis. -/
theorem claim_C8_unknown_fallback :
    (generate_hypotheses [] =
      [{ category := "unknown", title := "Unknown Issue", confidence := 0.3, rank := 1,
         supporting_evidence_ids := [],
         recommended_actions :=
           ["Review application logs",
            "Check recent deployments",
            "Verify external dependencies",
            "Escalate to engineering team"],
         generated_by := "rules_engine", rule_id := "unknown", support_count := 0,
         signal_strength := 0, final_score := 0 }]) ∧
    (∀ evidence : List EvidenceItem,
      (∀ rule ∈ DIAGNOSIS_RULES,
        (match_rule rule (extract_signals evidence)).matched = false) →
      generate_hypotheses evidence = [create_unknown_hypothesis (extract_signals evidence)]) ∧
    (∀ signals : Signals, (create_unknown_hypothesis signals).confidence = 0.3 ∧
      (create_unknown_hypothesis signals).rank = 1) := by
  refine ⟨rfl, ?_, fun signals => ⟨rfl, rfl⟩⟩
  intro evidence hall
  unfold generate_hypotheses
  dsimp only
  have hnil : (DIAGNOSIS_RULES.filterMap (fun rule =>
      let mr := match_rule rule (extract_signals evidence)
      if mr.matched then some (create_hypothesis rule mr) else none)) = [] :=
    List.filterMap_eq_nil_iff.mpr (fun r hr => by simp [hall r hr])
  rw [hnil]
  simp

/-- Witness for C8 at a one-item evidence list on which no rule fires. -/
theorem claim_C8_unknown_fallback_witness :
    generate_hypotheses no_match_evidence =
      [create_unknown_hypothesis (extract_signals no_match_evidence)] :=
  claim_C8_unknown_fallback.2.1 no_match_evidence (by decide)

/-- C10: every hypothesis the rules engine produces — from a matched rule or
the unknown fallback — carries as supporting evidence ids exactly the first
five ids of the submitted evidence list, in input order. -/
theorem claim_C10_supporting_evidence :
    ∀ evidence : List EvidenceItem, ∀ h ∈ generate_hypotheses evidence,
      h.supporting_evidence_ids = (evidence.map (fun e => e.id)).take 5 := by
  intro evidence h hmem
  simp only [generate_hypotheses] at hmem
  split at hmem
  · simp only [List.mem_singleton] at hmem
    subst hmem
    simp only [create_unknown_hypothesis]
    rw [extract_signals_ids]
  · have hmem2 := (List.mem_insertionSort
      (fun a b : HypothesisR => b.confidence ≤ a.confidence)).mp hmem
    obtain ⟨rule, hr, heq⟩ := List.mem_filterMap.mp hmem2
    split at heq
    · rw [Option.some_inj] at heq
      subst heq
      simp only [create_hypothesis, match_rule]
      rw [extract_signals_ids]
    · cases heq

/-- Witness for C10 at the oom evidence list and the hypothesis its matching
rule produces. -/
theorem claim_C10_supporting_evidence_witness :
    (create_hypothesis oom_killed_rule
        (match_rule oom_killed_rule (extract_signals oom_evidence))).supporting_evidence_ids =
      (oom_evidence.map (fun e => e.id)).take 5 :=
  claim_C10_supporting_evidence oom_evidence _
    (mem_generate_hypotheses_of_matched oom_evidence oom_killed_rule
      (by simp [DIAGNOSIS_RULES, oom_killed_rule]) (by decide))

/-- C7: a failed policy query — network error, non-2xx status, or unparsable
body — always yields allow = false and requires_approval = true with an
error reason; a failed query can never yield allow = true, which only a
successful query whose result carries allow (and then requires_approval is
read from the result with default true) can produce. -/
theorem claim_C7_fail_closed :
    (∀ outcome : OpaHttpOutcome, ∀ e, query_opa outcome = .error e →
      evaluate_remediation outcome =
        { allow := false, requires_approval := true,
          deny_reasons := ["Policy evaluation error: " ++ e],
          reason := "Policy evaluation error: " ++ e }) ∧
    (∀ outcome : OpaHttpOutcome, (evaluate_remediation outcome).allow = true →
      ∃ r, query_opa outcome = .ok r ∧ r.allow = some true) ∧
    (∀ e, query_opa (.netError e) = .error e) ∧
    (∀ status body, status < 200 ∨ 300 ≤ status →
      ∃ e, query_opa (.response status body) = .error e) ∧
    (∀ status, 200 ≤ status → status < 300 →
      query_opa (.response status none) = .error "response body is not valid JSON") := by
  refine ⟨?_, ?_, fun e => rfl, ?_, ?_⟩
  · intro outcome e hq
    unfold evaluate_remediation
    rw [hq]
  · intro outcome hallow
    unfold evaluate_remediation at hallow
    cases hq : query_opa outcome with
    | error e => rw [hq] at hallow; simp at hallow
    | ok r =>
        rw [hq] at hallow
        dsimp only at hallow
        refine ⟨r, rfl, ?_⟩
        cases hr : r.allow with
        | none => rw [hr] at hallow; simp at hallow
        | some b => rw [hr] at hallow; simp at hallow; rw [hallow]
  · intro status body hst
    unfold query_opa
    dsimp only
    have hcond : (decide (status < 200) || decide (300 ≤ status)) = true := by
      rcases hst with h | h <;> simp [h]
    rw [if_pos hcond]
    exact ⟨_, rfl⟩
  · intro status h1 h2
    unfold query_opa
    dsimp only
    have hcond : ¬((decide (status < 200) || decide (300 ≤ status)) = true) := by
      simp
      omega
    rw [if_neg hcond]

/-- Witness for C7 at a concrete transport failure. -/
theorem claim_C7_fail_closed_witness :
    evaluate_remediation (.netError "connection refused") =
      { allow := false, requires_approval := true,
        deny_reasons := ["Policy evaluation error: connection refused"],
        reason := "Policy evaluation error: connection refused" } :=
  claim_C7_fail_closed.1 (.netError "connection refused") "connection refused" rfl

/-- C1 (code bug): at a pod set with one healthy and one unhealthy pod and
neither metric probe improved, verify reports success = true, although the
second listed pod is not Running-and-Ready (all_healthy = false) — because
the combination reads the healthy-count entry of the pod-health dict
(truthy when at least one pod is healthy) instead of the all_healthy flag it
computed; under the claimed combination success would be false. -/
theorem claim_C1_code_divergence :
    (verify_combine (check_error_rate none none) (check_restart_rate none none)
        (check_pod_health c1_pods)).success = true ∧
    (verify_combine (check_error_rate none none) (check_restart_rate none none)
        (check_pod_health c1_pods)).metrics_improved = true ∧
    probe_improved (check_error_rate none none) = false ∧
    probe_improved (check_restart_rate none none) = false ∧
    pod_health_all_healthy (check_pod_health c1_pods) = false ∧
    is_pod_healthy ⟨"Pending", []⟩ = false ∧
    check_pod_health c1_pods = .ok 2 1 ∧
    pod_health_healthy_truthy (check_pod_health c1_pods) = true := by
  decide

set_option maxRecDepth 10000 in

/-- Sanity test vector: SHA-256 of the empty message. -/
theorem sha256_empty_vector :
    sha256Hex "" = "e3b0c44298fc1c149afbf4c8996fb92427ae41e4649b934ca495991b7852b855" := by
  decide

set_option maxRecDepth 40000 in

/-- C2 counterexample: both alerts have no service label and agree on
(source, alertname, namespace), yet normalize_alertmanager assigns them
different fingerprints, because the fingerprint key falls back to the pod
label when the service is absent; neither fingerprint equals the one the
claim prescribes (hashing with the empty service string). -/
theorem claim_C2_counterexample :
    dictGet c2_labels_pod1 "service" = none ∧
    dictGet c2_labels_pod2 "service" = none ∧
    amAlertname c2_labels_pod1 = amAlertname c2_labels_pod2 ∧
    amNamespace c2_labels_pod1 = amNamespace c2_labels_pod2 ∧
    normalize_alertmanager_fingerprint c2_labels_pod1 ≠
      normalize_alertmanager_fingerprint c2_labels_pod2 ∧
    normalize_alertmanager_fingerprint c2_labels_pod1 ≠
      claim_alertmanager_fingerprint c2_labels_pod1 ∧
    normalize_alertmanager_fingerprint c2_labels_pod1 =
      "34b22f064028e21d40797e7fc2d68ca0" ∧
    normalize_alertmanager_fingerprint c2_labels_pod2 =
      "0883e0b60c56c320909986c279bfec41" ∧
    claim_alertmanager_fingerprint c2_labels_pod1 =
      "1367dbfdb48073526c8772a75e48f867" := by
  decide

/-- C2 amended: the alertmanager fingerprint is the first 32 hex characters
of the SHA-256 of "alertmanager:" ++ alertname ++ ":" ++ namespace ++ ":" ++
svc, where svc falls back from the service label through job, deployment and
pod to the
empty string (Python or-chains, so empty labels are skipped); any two alerts
agreeing on alertname, namespace and that effective service value get
identical fingerprints, and the pod fallback is only reached when the
service/job/deployment chain is falsy. -/
theorem claim_C2_amended :
    (∀ labels, normalize_alertmanager_fingerprint labels =
      generate_fingerprint "alertmanager" (amAlertname labels) (amNamespace labels)
        (amFingerprintService labels)) ∧
    (∀ l1 l2 : List (String × String),
      amAlertname l1 = amAlertname l2 → amNamespace l1 = amNamespace l2 →
      amFingerprintService l1 = amFingerprintService l2 →
      normalize_alertmanager_fingerprint l1 = normalize_alertmanager_fingerprint l2) ∧
    (∀ labels, pyTruthyStr (amService labels) = true →
      amFingerprintService labels = (amService labels).getD "") := by
  refine ⟨fun labels => rfl, ?_, ?_⟩
  · intro l1 l2 ha hn hs
    unfold normalize_alertmanager_fingerprint
    rw [ha, hn, hs]
  · intro labels htruthy
    unfold amFingerprintService
    cases hsvc : amService labels with
    | none => rw [hsvc] at htruthy; simp [pyTruthyStr] at htruthy
    | some s =>
        rw [hsvc] at htruthy
        simp only [pyTruthyStr, Bool.not_eq_eq_eq_not, Bool.not_false] at htruthy
        have hne : ¬(s = "") := by
          intro hcontra
          rw [hcontra] at htruthy
          simp at htruthy
        simp [pyOrStr, hne]

/-- Witness for C2 amended: two alerts agreeing on the effective service
value receive the same fingerprint. -/
theorem claim_C2_amended_witness :
    normalize_alertmanager_fingerprint c2_witness_labels1 =
      normalize_alertmanager_fingerprint c2_witness_labels2 :=
  claim_C2_amended.2.1 c2_witness_labels1 c2_witness_labels2 rfl rfl rfl

set_option linter.unusedTactic false in
/-- The multiplied environment/criticality factor always turns into an
integer when multiplied by 100. -/
theorem crit_env_times_100_int (critB : Bool) (env : String) :
    ∃ k : ℤ, ((if critB then (1.5 : ℚ) else 1) * env_multiplier env) * 100 = k := by
  have hc : (if critB then (1.5 : ℚ) else 1) = 1.5 ∨ (if critB then (1.5 : ℚ) else 1) = 1 := by
    cases critB <;> simp
  have hm : env_multiplier env = 1 ∨ env_multiplier env = 2 ∨ env_multiplier env = 2.5 ∨
      env_multiplier env = 5 ∨ env_multiplier env = 3 := by
    unfold env_multiplier
    by_cases h1 : env = "dev" <;> by_cases h2 : env = "staging" <;>
      by_cases h3 : env = "uat" <;> by_cases h4 : env = "prod" <;>
      simp [h1, h2, h3, h4] <;> norm_num
  rcases hc with hc | hc <;> rcases hm with hm | hm | hm | hm | hm <;> rw [hc, hm] <;>
    first
      | (refine ⟨100, ?_⟩; norm_num; done)
      | (refine ⟨150, ?_⟩; norm_num; done)
      | (refine ⟨200, ?_⟩; norm_num; done)
      | (refine ⟨250, ?_⟩; norm_num; done)
      | (refine ⟨300, ?_⟩; norm_num; done)
      | (refine ⟨375, ?_⟩; norm_num; done)
      | (refine ⟨450, ?_⟩; norm_num; done)
      | (refine ⟨500, ?_⟩; norm_num; done)
      | (refine ⟨750, ?_⟩; norm_num; done)

/-- The 2-decimal rounding of a blast-radius score is the identity: every
reachable score times 100 is an integer. -/
theorem roundTo2_blast (pods deps : ℕ) (critB : Bool) (env : String) :
    roundTo 2 (min ((if critB then ((pods : ℚ) * 5 + (deps : ℚ) * 10) * 1.5
        else ((pods : ℚ) * 5 + (deps : ℚ) * 10)) * env_multiplier env) 100) =
      min ((if critB then ((pods : ℚ) * 5 + (deps : ℚ) * 10) * 1.5
        else ((pods : ℚ) * 5 + (deps : ℚ) * 10)) * env_multiplier env) 100 := by
  obtain ⟨k, hk⟩ := crit_env_times_100_int critB env
  apply roundTo2_min100 _ ((pods * 5 + deps * 10 : ℕ) * k)
  have hx : ((if critB then ((pods : ℚ) * 5 + (deps : ℚ) * 10) * 1.5
        else ((pods : ℚ) * 5 + (deps : ℚ) * 10)) * env_multiplier env) * 100 =
      ((pods : ℚ) * 5 + (deps : ℚ) * 10) *
        (((if critB then (1.5 : ℚ) else 1) * env_multiplier env) * 100) := by
    cases critB <;> simp <;> ring
  rw [hx, hk]
  push_cast
  ring

/-- Evaluation of calculate_blast_radius when the deployment read succeeds:
the returned score is exactly the unrounded min(base·multipliers, 100) (the
2-decimal rounding is the identity on it), and acceptability compares that
score strictly against the threshold. -/
theorem calculate_blast_radius_found (nspace : String) (service : Option String)
    (app_env : String) (maxB : ℚ) (replicas : Option ℕ) :
    calculate_blast_radius nspace service app_env maxB (.found replicas) =
      (let pods : ℕ := if pyTruthyStr service then
          (match replicas with | some (n + 1) => n + 1 | _ => 1) else 0
       let deps : ℕ := if pyTruthyStr service then 1 else 0
       let raw : ℚ := min ((if critical_namespaces.contains nspace then
             ((pods : ℚ) * 5 + (deps : ℚ) * 10) * 1.5
           else ((pods : ℚ) * 5 + (deps : ℚ) * 10)) * env_multiplier (strToLower app_env)) 100
       .ok raw pods deps (strToLower app_env) (env_multiplier (strToLower app_env))
         (decide (raw < maxB))) := by
  unfold calculate_blast_radius
  dsimp only
  cases htr : pyTruthyStr service
  · simp only [Bool.false_eq_true, if_false]
    rw [roundTo2_blast 0 0]
  · simp only [if_true]
    rw [roundTo2_blast]

/-- Evaluation of calculate_blast_radius when the deployment read raises an
ApiException: the exception is swallowed, both affected counts stay 0, and
the score is 0 — not the 100 of the outer failure handler. -/
theorem calculate_blast_radius_apiException (nspace : String) (service : Option String)
    (app_env : String) (maxB : ℚ) :
    calculate_blast_radius nspace service app_env maxB .apiException =
      .ok 0 0 0 (strToLower app_env) (env_multiplier (strToLower app_env))
        (decide ((0 : ℚ) < maxB)) := by
  unfold calculate_blast_radius
  dsimp only
  have hbase : ∀ b : Bool, ((if b then
      (((0 : ℕ) : ℚ) * 5 + ((0 : ℕ) : ℚ) * 10) * 1.5
      else (((0 : ℕ) : ℚ) * 5 + ((0 : ℕ) : ℚ) * 10)) : ℚ) = 0 := by
    intro b; cases b <;> simp
  cases htr : pyTruthyStr service <;>
    · simp only [Bool.false_eq_true, if_false, if_true]
      rw [show (((0 : ℕ) : ℚ) * 5 + ((0 : ℕ) : ℚ) * 10) = 0 from by norm_num]
      have h15 : ((0 : ℚ)) * 1.5 = 0 := by norm_num
      have hmin : min ((if critical_namespaces.contains nspace then ((0 : ℚ)) * 1.5
          else (0 : ℚ)) * env_multiplier (strToLower app_env)) 100 = 0 := by
        rw [show (if critical_namespaces.contains nspace then ((0 : ℚ)) * 1.5
            else (0 : ℚ)) = 0 from by split <;> norm_num]
        rw [zero_mul]
        exact min_eq_left (by norm_num)
      rw [hmin]
      rw [roundTo_eq_self 2 0 0 (by norm_num)]

/-- C6 amended: with a successful deployment read the score is exactly
min(base·1.5-if-critical·envMultiplier, 100) for base = 5·pods + 10·deps
with the claimed environment table on the lowercased app_env, and
is_acceptable holds iff that score is strictly below the threshold; an
exception reaching the outer handler yields score 100 and not acceptable;
but an ApiException on the deployment read itself is swallowed, leaving
counts 0 and score 0; the concrete staging example yields 75.0. -/
theorem claim_C6_blast_radius :
    (∀ nspace service app_env (maxB : ℚ) e,
      calculate_blast_radius nspace service app_env maxB (.fatal e) =
        .failure 100 e false) ∧
    (∀ nspace service app_env (maxB : ℚ) replicas,
      calculate_blast_radius nspace service app_env maxB (.found replicas) =
        (let pods : ℕ := if pyTruthyStr service then
            (match replicas with | some (n + 1) => n + 1 | _ => 1) else 0
         let deps : ℕ := if pyTruthyStr service then 1 else 0
         let raw : ℚ := min ((if critical_namespaces.contains nspace then
               ((pods : ℚ) * 5 + (deps : ℚ) * 10) * 1.5
             else ((pods : ℚ) * 5 + (deps : ℚ) * 10)) * env_multiplier (strToLower app_env)) 100
         .ok raw pods deps (strToLower app_env) (env_multiplier (strToLower app_env))
           (decide (raw < maxB)))) ∧
    (∀ nspace service app_env (maxB : ℚ),
      calculate_blast_radius nspace service app_env maxB .apiException =
        .ok 0 0 0 (strToLower app_env) (env_multiplier (strToLower app_env))
          (decide ((0 : ℚ) < maxB))) ∧
    calculate_blast_radius "default" (some "checkout") "staging" 50 (.found (some 3)) =
      .ok 75 3 1 "staging" 2 false := by
  refine ⟨fun _ _ _ _ _ => rfl, calculate_blast_radius_found,
    calculate_blast_radius_apiException, ?_⟩
  rw [calculate_blast_radius_found]
  dsimp only
  rw [show pyTruthyStr (some "checkout") = true from rfl]
  simp only [if_true]
  rw [show (strToLower "staging") = "staging" from by decide]
  rw [show env_multiplier "staging" = 2 from by
    unfold env_multiplier
    rw [if_neg (by simp), if_pos rfl]
    norm_num]
  rw [show (critical_namespaces.contains "default") = true from rfl]
  simp only [if_true]
  have hmin : min (((((3 : ℕ) : ℚ)) * 5 + (((1 : ℕ) : ℚ)) * 10) * 1.5 * 2) 100 = 75 := by
    rw [min_eq_left] <;> norm_num
  rw [hmin]
  rfl

/-- C6 counterexample: an ApiException on the deployment read is a failure
of the cluster query, yet the returned score is 0 with is_acceptable true
(for any positive threshold) — not the claimed score 100 with
is_acceptable false. -/
theorem claim_C6_counterexample :
    calculate_blast_radius "payments" (some "api") "dev" 50 .apiException =
      .ok 0 0 0 "dev" 1 true ∧
    (calculate_blast_radius "payments" (some "api") "dev" 50 .apiException).score ≠ 100 ∧
    (calculate_blast_radius "payments" (some "api") "dev" 50
      .apiException).is_acceptable = true := by
  have h := calculate_blast_radius_apiException "payments" (some "api") "dev" 50
  rw [show strToLower "dev" = "dev" from by decide] at h
  rw [show env_multiplier "dev" = 1 from by
    unfold env_multiplier; rw [if_pos rfl]; norm_num] at h
  rw [show (decide ((0 : ℚ) < 50)) = true from by norm_num] at h
  refine ⟨h, ?_, ?_⟩ <;> rw [h]
  · simp only [BlastRadiusResult.score]
    norm_num
  · rfl

/-- C9: infinite sample values are discarded by the parser; a merged series
of length exactly max_metric_points is left alone, a strictly longer one is
stride-decimated with stride length // max_points; and process_results is
exactly parse-merge, stable sort by timestamp, then decimation. -/
theorem claim_C9_metrics :
    (∀ ts : ℚ, parse_metric_value ts .posInf = none) ∧
    (∀ ts : ℚ, parse_metric_value ts .negInf = none) ∧
    (∀ (l : List MetricPoint) (m : ℕ), l.length = m → decimate m l = l) ∧
    (∀ (l : List MetricPoint) (m : ℕ), l.length > m →
      decimate m l = everyNth (l.length / m) l) ∧
    (∀ (m : ℕ) (results : List (List (ℚ × RawMetricValue))),
      process_results m results =
        decimate m ((results.foldl (fun acc series =>
            acc ++ series.filterMap (fun s => parse_metric_value s.1 s.2)) []).insertionSort
          (fun a b : MetricPoint => a.timestamp ≤ b.timestamp))) := by
  refine ⟨fun _ => rfl, fun _ => rfl, ?_, ?_, fun _ _ => rfl⟩
  · intro l m h
    unfold decimate
    rw [if_neg (by omega)]
  · intro l m h
    unfold decimate
    rw [if_pos h]

/-- Witness for C9: a 3-point series is untouched at max_points 3 and
strided at max_points 2. -/
theorem claim_C9_metrics_witness :
    decimate 3 c9_points = c9_points ∧
    decimate 2 c9_points = everyNth (c9_points.length / 2) c9_points :=
  ⟨claim_C9_metrics.2.2.1 c9_points 3 (by decide),
   claim_C9_metrics.2.2.2.1 c9_points 2 (by decide)⟩

/-- Downward-rounding evaluation of roundTo: when the scaled value sits in
[z, z + 1/2), the result is z / 10^d. -/
theorem roundTo_eq_down (d : ℕ) (q : ℚ) (z : ℤ)
    (h1 : (z : ℚ) ≤ q * 10 ^ d) (h2 : q * 10 ^ d < (z : ℚ) + 1/2) :
    roundTo d q = (z : ℚ) / 10 ^ d := by
  unfold roundTo roundHalfEven
  have hfl : ⌊q * 10 ^ d⌋ = z := Int.floor_eq_iff.mpr ⟨h1, by linarith⟩
  rw [hfl]
  rw [if_pos (by linarith)]

/-- The stored final score equals the claimed product formula rounded to 4
decimal places (the skipped support factor at support_count = 0 is the
factor 1). -/
theorem final_score_of_eq (h : HypothesisR) :
    final_score_of h = roundTo 4 (claim_final_score h) := by
  unfold final_score_of claim_final_score
  dsimp only
  by_cases hpos : h.support_count > 0
  · rw [if_pos hpos]
    congr 1
    ring
  · rw [if_neg hpos]
    have hzero : h.support_count = 0 := by omega
    rw [hzero]
    congr 1
    rw [show min 0 5 = 0 from rfl]
    push_cast
    ring

/-- Rank assignment writes the consecutive ranks i, i+1, …. -/
theorem assign_ranks_map_rank : ∀ (l : List HypothesisR) (i : ℕ),
    (assign_ranks i l).map (fun h => h.rank) = List.range' i l.length := by
  intro l
  induction l with
  | nil => intro i; rfl
  | cons h t ih =>
      intro i
      simp only [assign_ranks, List.map_cons, List.length_cons, List.range'_succ, ih]

/-- Rank assignment changes nothing but the rank fields. -/
theorem assign_ranks_map_erase : ∀ (l : List HypothesisR) (i : ℕ),
    (assign_ranks i l).map erase_rank = l.map erase_rank := by
  intro l
  induction l with
  | nil => intro i; rfl
  | cons h t ih =>
      intro i
      simp only [assign_ranks, List.map_cons, ih]
      rfl

/-- Rank assignment preserves the final scores, in order. -/
theorem assign_ranks_map_score : ∀ (l : List HypothesisR) (i : ℕ),
    (assign_ranks i l).map (fun h => h.final_score) = l.map (fun h => h.final_score) := by
  intro l
  induction l with
  | nil => intro i; rfl
  | cons h t ih =>
      intro i
      simp only [assign_ranks, List.map_cons, ih]

/-- Every element of a rank-assigned list is an element of the original list
with only its rank replaced. -/
theorem assign_ranks_mem : ∀ (l : List HypothesisR) (i : ℕ) (h : HypothesisR),
    h ∈ assign_ranks i l → ∃ h0 ∈ l, ∃ j, h = { h0 with rank := j } := by
  intro l
  induction l with
  | nil => intro i h hmem; cases hmem
  | cons a t ih =>
      intro i h hmem
      rcases List.mem_cons.mp hmem with rfl | hmem2
      · exact ⟨a, List.mem_cons_self a t, i, rfl⟩
      · obtain ⟨h0, hh0, j, hj⟩ := ih (i + 1) h hmem2
        exact ⟨h0, List.mem_cons_of_mem a hh0, j, hj⟩

/-- Inserting an element whose final score misses the filter value leaves
the filtered subsequence unchanged. -/
theorem orderedInsert_filter_ne (x : HypothesisR) (c : ℚ) (hx : ¬(x.final_score = c)) :
    ∀ l : List HypothesisR,
      ((l.orderedInsert (fun a b => b.final_score ≤ a.final_score) x).filter
          (fun h => h.final_score == c)) =
        l.filter (fun h => h.final_score == c) := by
  intro l
  induction l with
  | nil => simp [List.orderedInsert, hx]
  | cons b t ih =>
      rw [List.orderedInsert]
      split
      · rw [List.filter_cons_of_neg (by simp [hx])]
      · rw [List.filter_cons, List.filter_cons, ih]

/-- Inserting an element carrying the filter value prepends it to the
filtered subsequence: it lands before every equal-scored element of the
(later-inserted) tail. -/
theorem orderedInsert_filter_eq (x : HypothesisR) (c : ℚ) (hx : x.final_score = c) :
    ∀ l : List HypothesisR,
      ((l.orderedInsert (fun a b => b.final_score ≤ a.final_score) x).filter
          (fun h => h.final_score == c)) =
        x :: l.filter (fun h => h.final_score == c) := by
  intro l
  induction l with
  | nil => simp [List.orderedInsert, hx]
  | cons b t ih =>
      rw [List.orderedInsert]
      split
      · rw [List.filter_cons_of_pos (by simp [hx])]
      · next hr =>
          have hb : ¬(b.final_score = c) := by
            intro hcontra
            exact hr (by rw [hcontra, hx])
          rw [List.filter_cons_of_neg (by simp [hb]),
            List.filter_cons_of_neg (by simp [hb]), ih]

/-- Stability of the descending insertion sort: for every score value the
filtered subsequence is exactly the one of the input, in input order. -/
theorem insertionSort_filter_stable (c : ℚ) :
    ∀ l : List HypothesisR,
      ((l.insertionSort (fun a b => b.final_score ≤ a.final_score)).filter
          (fun h => h.final_score == c)) =
        l.filter (fun h => h.final_score == c) := by
  intro l
  induction l with
  | nil => rfl
  | cons a t ih =>
      rw [List.insertionSort]
      by_cases hx : a.final_score = c
      · rw [orderedInsert_filter_eq a c hx _, ih, List.filter_cons_of_pos (by simp [hx])]
      · rw [orderedInsert_filter_ne a c hx _, ih, List.filter_cons_of_neg (by simp [hx])]

/-- C3 amended: for a non-empty input the ranker stores on each hypothesis
final score = round-to-4-decimals of confidence · categoryWeight ·
(1 + 0.05·min(supportCount,5)) · (1 + 0.20·signalStrength), sorts by that
(rounded) score descending and stably — for every score value the filtered
subsequence equals the input subsequence — and assigns the contiguous ranks
1..N. -/
theorem claim_C3_ranker_amended :
    ∀ hypotheses : List HypothesisR, hypotheses ≠ [] →
      ((rank_hypotheses hypotheses).map (fun h => h.rank) =
        List.range' 1 hypotheses.length) ∧
      (∀ h ∈ rank_hypotheses hypotheses,
        h.final_score = roundTo 4 (claim_final_score h)) ∧
      ((rank_hypotheses hypotheses).map (fun h => h.final_score)).Sorted
        (fun a b : ℚ => b ≤ a) ∧
      ((rank_hypotheses hypotheses).map erase_rank).Perm
        (hypotheses.map (fun h => erase_rank { h with final_score := final_score_of h })) ∧
      (∀ c : ℚ, ((rank_hypotheses hypotheses).map erase_rank).filter
          (fun h => h.final_score == c) =
        (hypotheses.map (fun h => erase_rank { h with final_score := final_score_of h })).filter
          (fun h => h.final_score == c)) := by
  intro hypotheses hne
  obtain ⟨a, t, rfl⟩ : ∃ a t, hypotheses = a :: t := by
    cases hypotheses with
    | nil => exact absurd rfl hne
    | cons a t => exact ⟨a, t, rfl⟩
  have hrank : rank_hypotheses (a :: t) =
      assign_ranks 1 (((a :: t).map (fun h => { h with final_score := final_score_of h })).insertionSort
        (fun a b => b.final_score ≤ a.final_score)) := rfl
  haveI instTot : IsTotal HypothesisR (fun a b => b.final_score ≤ a.final_score) :=
    ⟨fun x y => le_total y.final_score x.final_score⟩
  haveI instTrans : IsTrans HypothesisR (fun a b => b.final_score ≤ a.final_score) :=
    ⟨fun x y z hxy hyz => le_trans hyz hxy⟩
  refine ⟨?_, ?_, ?_, ?_, ?_⟩
  · rw [hrank, assign_ranks_map_rank]
    rw [List.length_insertionSort, List.length_map]
  · intro h hmem
    rw [hrank] at hmem
    obtain ⟨h0, hh0, j, rfl⟩ := assign_ranks_mem _ 1 h hmem
    have hh0s := (List.mem_insertionSort
      (fun a b : HypothesisR => b.final_score ≤ a.final_score)).mp hh0
    obtain ⟨g, hg, rfl⟩ := List.mem_map.mp hh0s
    show ({ g with final_score := final_score_of g }).final_score =
      roundTo 4 (claim_final_score { { g with final_score := final_score_of g } with rank := j })
    have hclaim : claim_final_score { { g with final_score := final_score_of g } with rank := j } =
        claim_final_score g := rfl
    rw [hclaim]
    exact final_score_of_eq g
  · rw [hrank, assign_ranks_map_score]
    have hsorted := List.sorted_insertionSort (fun a b : HypothesisR => b.final_score ≤ a.final_score)
      ((a :: t).map (fun h => { h with final_score := final_score_of h }))
    exact List.Pairwise.map _ (fun x y hxy => hxy) hsorted
  · rw [hrank, assign_ranks_map_erase]
    have hperm := List.perm_insertionSort (fun a b : HypothesisR => b.final_score ≤ a.final_score)
      ((a :: t).map (fun h => { h with final_score := final_score_of h }))
    have := hperm.map erase_rank
    simpa [List.map_map, Function.comp] using this
  · intro c
    rw [hrank, assign_ranks_map_erase]
    rw [List.filter_map]
    have hpred : ((fun h : HypothesisR => h.final_score == c) ∘ erase_rank) =
        (fun h : HypothesisR => h.final_score == c) := by
      funext h
      rfl
    rw [hpred]
    rw [insertionSort_filter_stable c]
    simp only [List.filter_map, List.map_map]
    congr 1

/-- C3 counterexample: the ranker stores 1.3024 — the 4-decimal rounding —
as final score, not the exact product 1.302444 the claim prescribes. -/
theorem claim_C3_counterexample :
    (rank_hypotheses [c3_hypothesis]).map (fun h => h.final_score) =
      [(13024 : ℚ) / 10000] ∧
    claim_final_score c3_hypothesis = 1302444 / 1000000 ∧
    ((13024 : ℚ) / 10000 ≠ 1302444 / 1000000) := by
  have hclaim : claim_final_score c3_hypothesis = 1302444 / 1000000 := by
    unfold claim_final_score c3_hypothesis category_weights
    simp only [String.reduceEq, if_false, if_true, ite_true, ite_false]
    norm_num
  have hscore : final_score_of c3_hypothesis = (13024 : ℚ) / 10000 := by
    rw [final_score_of_eq, hclaim]
    rw [show ((13024 : ℚ) / 10000) = ((13024 : ℤ) : ℚ) / 10 ^ 4 from by norm_num]
    exact roundTo_eq_down 4 _ 13024 (by norm_num) (by norm_num)
  refine ⟨?_, hclaim, by norm_num⟩
  show (assign_ranks 1 (([c3_hypothesis].map
      (fun h => { h with final_score := final_score_of h })).insertionSort
      (fun a b => b.final_score ≤ a.final_score))).map (fun h => h.final_score) = _
  simp only [List.map_cons, List.map_nil, List.insertionSort, List.orderedInsert,
    assign_ranks, hscore]

/-- Witness for C3 amended at the one-element list. -/
theorem claim_C3_ranker_amended_witness :
    ((rank_hypotheses [c3_hypothesis]).map (fun h => h.rank) =
      List.range' 1 [c3_hypothesis].length) ∧
    (∀ h ∈ rank_hypotheses [c3_hypothesis],
      h.final_score = roundTo 4 (claim_final_score h)) ∧
    ((rank_hypotheses [c3_hypothesis]).map (fun h => h.final_score)).Sorted
      (fun a b : ℚ => b ≤ a) ∧
    ((rank_hypotheses [c3_hypothesis]).map erase_rank).Perm
      ([c3_hypothesis].map (fun h => erase_rank { h with final_score := final_score_of h })) ∧
    (∀ c : ℚ, ((rank_hypotheses [c3_hypothesis]).map erase_rank).filter
        (fun h => h.final_score == c) =
      ([c3_hypothesis].map (fun h => erase_rank { h with final_score := final_score_of h })).filter
        (fun h => h.final_score == c)) :=
  claim_C3_ranker_amended [c3_hypothesis] (by simp)
